import Mathlib

/-!
Verification of the Telco churn-prediction dashboard (`app.py`) against its
specification.  The Python source is shallowly embedded: the record built by
`build_input_df`, the PDF produced by `generate_pdf`, the predict-button
handler, and the startup model-loading sequence are all modelled as pure Lean
functions over explicit value, pipeline and clock parameters.
-/

/-- Python runtime values that flow through the app: strings from the
select boxes and text input, integers (`SeniorCitizen`, `tenure`, labels),
and decimal numbers (the charges, probabilities), modelled as rationals. -/
inductive PyVal where
  | str : String → PyVal
  | int : Int → PyVal
  | num : Rat → PyVal
deriving DecidableEq

/-- Python equality test `v == 1` as used on the prediction label: an int
equals 1 exactly when it is 1, a float equals 1 exactly when it is 1.0, and
a string never equals the integer 1.  There is no other branch. -/
def pyEqOne : PyVal → Bool
  | .int n => n == 1
  | .num q => q == 1
  | .str _ => false

/-- The captured form fields of the Streamlit UI (lines 24-55 of `app.py`).
Select boxes yield strings, `tenure` is an integer input with bounds 0-100,
the charges are non-negative decimals. -/
structure Fields where
  customer_id : String
  gender : String
  senior_citizen : String
  partner : String
  dependents : String
  tenure : Nat
  phone_service : String
  multiple_lines : String
  internet_service : String
  online_security : String
  online_backup : String
  device_protection : String
  tech_support : String
  streaming_tv : String
  streaming_movies : String
  contract : String
  paperless_billing : String
  payment_method : String
  monthly_charges : Rat
  total_charges : Rat

/-- A single-row data frame: the ordered association of column name to value. -/
abbrev Df := List (String × PyVal)

/-- Embedding of `build_input_df` (`app.py` lines 58-83): the dict literal in
source order, with `SeniorCitizen` mapped to `1 if senior_citizen == "Yes"
else 0` and every other field passed through unchanged. -/
def build_input_df (f : Fields) : Df :=
  [ ("customerID", .str f.customer_id),
    ("gender", .str f.gender),
    ("SeniorCitizen", .int (if f.senior_citizen = "Yes" then 1 else 0)),
    ("Partner", .str f.partner),
    ("Dependents", .str f.dependents),
    ("tenure", .int f.tenure),
    ("PhoneService", .str f.phone_service),
    ("MultipleLines", .str f.multiple_lines),
    ("InternetService", .str f.internet_service),
    ("OnlineSecurity", .str f.online_security),
    ("OnlineBackup", .str f.online_backup),
    ("DeviceProtection", .str f.device_protection),
    ("TechSupport", .str f.tech_support),
    ("StreamingTV", .str f.streaming_tv),
    ("StreamingMovies", .str f.streaming_movies),
    ("Contract", .str f.contract),
    ("PaperlessBilling", .str f.paperless_billing),
    ("PaymentMethod", .str f.payment_method),
    ("MonthlyCharges", .num f.monthly_charges),
    ("TotalCharges", .num f.total_charges) ]

/-- The 20 training-time column names, in the order of the dict literal. -/
def trainingColumns : List String :=
  [ "customerID", "gender", "SeniorCitizen", "Partner", "Dependents",
    "tenure", "PhoneService", "MultipleLines", "InternetService",
    "OnlineSecurity", "OnlineBackup", "DeviceProtection", "TechSupport",
    "StreamingTV", "StreamingMovies", "Contract", "PaperlessBilling",
    "PaymentMethod", "MonthlyCharges", "TotalCharges" ]

/-- C2: for every combination of captured field values, `build_input_df`
produces a single-row record whose key list is exactly the fixed 20 training
column names, whose `SeniorCitizen` entry is the integer 1 iff the captured
choice was "Yes" (and the integer 0 otherwise), and whose every other entry is
the captured value passed through unchanged. -/
theorem build_input_df_schema (f : Fields) :
    (build_input_df f).map Prod.fst = trainingColumns ∧
    ((build_input_df f).lookup "SeniorCitizen" = some (.int 1) ↔
      f.senior_citizen = "Yes") ∧
    ((build_input_df f).lookup "SeniorCitizen" = some (.int 0) ↔
      ¬ f.senior_citizen = "Yes") ∧
    (build_input_df f).lookup "customerID" = some (.str f.customer_id) ∧
    (build_input_df f).lookup "gender" = some (.str f.gender) ∧
    (build_input_df f).lookup "Partner" = some (.str f.partner) ∧
    (build_input_df f).lookup "Dependents" = some (.str f.dependents) ∧
    (build_input_df f).lookup "tenure" = some (.int f.tenure) ∧
    (build_input_df f).lookup "PhoneService" = some (.str f.phone_service) ∧
    (build_input_df f).lookup "MultipleLines" = some (.str f.multiple_lines) ∧
    (build_input_df f).lookup "InternetService" = some (.str f.internet_service) ∧
    (build_input_df f).lookup "OnlineSecurity" = some (.str f.online_security) ∧
    (build_input_df f).lookup "OnlineBackup" = some (.str f.online_backup) ∧
    (build_input_df f).lookup "DeviceProtection" = some (.str f.device_protection) ∧
    (build_input_df f).lookup "TechSupport" = some (.str f.tech_support) ∧
    (build_input_df f).lookup "StreamingTV" = some (.str f.streaming_tv) ∧
    (build_input_df f).lookup "StreamingMovies" = some (.str f.streaming_movies) ∧
    (build_input_df f).lookup "Contract" = some (.str f.contract) ∧
    (build_input_df f).lookup "PaperlessBilling" = some (.str f.paperless_billing) ∧
    (build_input_df f).lookup "PaymentMethod" = some (.str f.payment_method) ∧
    (build_input_df f).lookup "MonthlyCharges" = some (.num f.monthly_charges) ∧
    (build_input_df f).lookup "TotalCharges" = some (.num f.total_charges) := by
  by_cases h : f.senior_citizen = "Yes" <;>
    simp [build_input_df, trainingColumns, List.lookup, h]

/-- C10: the record always contains the `customerID` key with the captured
value, even when that value is the empty string, and the key list has
constant length 20 — never 19. -/
theorem build_input_df_always_has_customerID (f : Fields) :
    (build_input_df f).lookup "customerID" = some (.str f.customer_id) ∧
    "customerID" ∈ (build_input_df f).map Prod.fst ∧
    ((build_input_df f).map Prod.fst).length = 20 := by
  refine ⟨?_, ?_, ?_⟩ <;> simp [build_input_df, List.lookup]

/-- A wall-clock timestamp at second resolution, as consumed by
`datetime.now().strftime(...)`. -/
structure DateTime where
  year : Nat
  month : Nat
  day : Nat
  hour : Nat
  minute : Nat
  second : Nat
deriving DecidableEq

/-- A calendar-valid timestamp in the four-digit-year era, the domain on
which `strftime` zero-pads every component to fixed width. -/
def validDT (t : DateTime) : Prop :=
  t.year ≤ 9999 ∧ 1 ≤ t.month ∧ t.month ≤ 12 ∧ 1 ≤ t.day ∧ t.day ≤ 31 ∧
    t.hour ≤ 23 ∧ t.minute ≤ 59 ∧ t.second ≤ 59

instance (t : DateTime) : Decidable (validDT t) := by
  unfold validDT; infer_instance

/-- Chronological (lexicographic componentwise) strict order on timestamps. -/
def before (t1 t2 : DateTime) : Prop :=
  t1.year < t2.year ∨ (t1.year = t2.year ∧
    (t1.month < t2.month ∨ (t1.month = t2.month ∧
      (t1.day < t2.day ∨ (t1.day = t2.day ∧
        (t1.hour < t2.hour ∨ (t1.hour = t2.hour ∧
          (t1.minute < t2.minute ∨ (t1.minute = t2.minute ∧
            t1.second < t2.second)))))))))

instance (t1 t2 : DateTime) : Decidable (before t1 t2) := by
  unfold before; infer_instance

/-- The decimal digit characters produced by zero-padded formatting. -/
def digitChar : Nat → Char
  | 0 => '0' | 1 => '1' | 2 => '2' | 3 => '3' | 4 => '4'
  | 5 => '5' | 6 => '6' | 7 => '7' | 8 => '8' | _ => '9'

/-- Big-endian, zero-padded `k`-digit decimal rendering of `n`, the effect of
`strftime` width specifiers on an in-range component. -/
def natDigits : Nat → Nat → List Char
  | 0, _ => []
  | k + 1, n => digitChar (n / 10 ^ k) :: natDigits k (n % 10 ^ k)

/-- The character sequence `strftime('%Y%m%d_%H%M%S')` produces. -/
def tsChars (t : DateTime) : List Char :=
  natDigits 4 t.year ++ (natDigits 2 t.month ++ (natDigits 2 t.day ++
    ('_' :: (natDigits 2 t.hour ++ (natDigits 2 t.minute ++
      natDigits 2 t.second)))))

/-- Embedding of the filename expression at `app.py` line 117:
`f"churn_report_{datetime.now().strftime('%Y%m%d_%H%M%S')}.pdf"`. -/
def report_filename (t : DateTime) : String :=
  "churn_report_" ++ String.mk (tsChars t) ++ ".pdf"

/-- One rendered line of the PDF report, keeping the text, structure and the
`set_text_color` state active at the verdict line. -/
inductive PdfLine where
  | title : String → PdfLine
  | generated : DateTime → PdfLine
  | header : String → PdfLine
  | item : String → PyVal → PdfLine
  | verdict : String → Nat → Nat → Nat → PdfLine
  | probLine : Rat → PdfLine
deriving DecidableEq

/-- Embedding of `generate_pdf` (`app.py` lines 86-119).  `tGen` is the clock
reading for the `Generated:` line, `tFile` the (second) clock reading used in
the filename.  Returns the rendered lines and the name of the one file
written by `pdf.output(filename)`. -/
def generate_pdf (customer_dict : Df) (pred_label : PyVal)
    (pred_proba : Option Rat) (tGen tFile : DateTime) :
    List PdfLine × String :=
  let lines :=
    [ PdfLine.title "Telco Customer Churn Prediction Report",
      PdfLine.generated tGen,
      PdfLine.header "Customer Input:" ]
    ++ customer_dict.map (fun kv => PdfLine.item kv.1 kv.2)
    ++ [ if pyEqOne pred_label then PdfLine.verdict "LIKELY TO CHURN ❌" 200 30 30
         else PdfLine.verdict "NOT LIKELY TO CHURN ✅" 30 130 30 ]
    ++ (match pred_proba with
        | some p => [PdfLine.probLine p]
        | none => [])
  (lines, report_filename tFile)

/-- The opaque fitted pipeline object: `predict` on a batch returns a list of
labels (or raises), and `predict_proba`, when the attribute exists at all,
returns a probability matrix (or raises). -/
structure Pipeline where
  predict : Df → Except String (List PyVal)
  predict_proba : Option (Df → Except String (List (List Rat)))

/-- Embedding of `app.py` lines 135-141: `pred = pipeline.predict(X_new)[0]`
(an empty batch result makes the indexing raise, uncaught), then
`proba = pipeline.predict_proba(X_new)[0][1]` guarded by `hasattr` and a
swallowing `except Exception: proba = None`. -/
def adapter_predict (pl : Pipeline) (X : Df) :
    Except String (PyVal × Option Rat) :=
  match pl.predict X with
  | .error e => .error e
  | .ok preds =>
    match preds.head? with
    | none => .error "IndexError"
    | some pred =>
      let proba : Option Rat :=
        match pl.predict_proba with
        | none => none
        | some g =>
          match g X with
          | .error _ => none
          | .ok mat => mat.head? >>= fun row => row.get? 1
      .ok (pred, proba)

/-- A message the handler shows in the Streamlit page. -/
inductive UiMsg where
  | inputSummary : Df → UiMsg
  | errorMsg : String → UiMsg
  | successMsg : String → UiMsg
  | info : String → UiMsg
deriving DecidableEq

/-- Observable effects of one run of the predict-button handler: the messages
shown, and the report files written to the local filesystem. -/
structure RunOutput where
  shown : List UiMsg
  files : List String
deriving DecidableEq

/-- Embedding of the predict-button handler (`app.py` lines 122-151).  The
second component is the uncaught exception, if any, that the `try`/`finally`
block propagates to the hosting framework after the `finally` write runs.
The display table drops the `customerID` row exactly when the lower-cased
index contains "customerid" and the captured id is empty (lines 128-131).
No call to `generate_pdf` occurs anywhere in the handler, so `files` is
always empty. -/
def predict_handler (f : Fields) (pl : Pipeline) :
    RunOutput × Option String :=
  let X := build_input_df f
  let display : Df :=
    if ((X.map (fun kv => kv.1.toLower)).count "customerid" != 0)
        && (f.customer_id == "") then
      X.filter (fun kv => kv.1 != "customerID")
    else X
  match adapter_predict pl X with
  | .error e =>
    (⟨[UiMsg.inputSummary display,
       UiMsg.info "Prediction attempt finished."], []⟩, some e)
  | .ok (pred, _proba) =>
    let resultMsg :=
      if pyEqOne pred then
        UiMsg.errorMsg "❌ This customer is likely to churn."
      else
        UiMsg.successMsg "✅ This customer is not likely to churn."
    (⟨[UiMsg.inputSummary display, resultMsg,
       UiMsg.info "Prediction attempt finished."], []⟩, none)

/-- Application state after the module-level load block (`app.py` lines
9-13): either running with a loaded pipeline, or halted by `st.error` plus
`st.stop()` with the formatted error message. -/
inductive AppState where
  | running : Pipeline → AppState
  | halted : String → AppState

/-- Embedding of the `try: pipeline = joblib.load(...) except ... st.stop()`
startup block. -/
def startup (loadResult : Except String Pipeline) : AppState :=
  match loadResult with
  | .ok pl => .running pl
  | .error e => .halted ("❌ Failed to load model: " ++ e)

/-- One request against the app: after `st.stop()` the script never reaches
the form or the predict button, so a halted app serves no request. -/
def run_app (s : AppState) (f : Fields) : Option (RunOutput × Option String) :=
  match s with
  | .halted _ => none
  | .running pl => some (predict_handler f pl)

/-- Each digit character is strictly increasing in the digit value. -/
lemma digitChar_lt {d e : Nat} (hd : d < 10) (he : e < 10) (h : d < e) :
    digitChar d < digitChar e := by
  interval_cases d <;> interval_cases e <;> first | omega | decide

/-- Zero-padded rendering has exactly the requested width. -/
lemma natDigits_length (k n : Nat) : (natDigits k n).length = k := by
  induction k generalizing n with
  | zero => rfl
  | succ k ih => simp [natDigits, ih]

/-- Zero-padded fixed-width decimal strings compare lexicographically the
same way as the numbers they render. -/
lemma natDigits_lex {k n m : Nat} (hn : n < 10 ^ k) (hm : m < 10 ^ k)
    (h : n < m) :
    List.Lex (· < ·) (natDigits k n) (natDigits k m) := by
  induction k generalizing n m with
  | zero => simp at hn hm; omega
  | succ k ih =>
    have hpow : (10 : Nat) ^ (k + 1) = 10 ^ k * 10 := pow_succ 10 k
    have hnd : n / 10 ^ k < 10 :=
      (Nat.div_lt_iff_lt_mul (Nat.pos_pow_of_pos k (by norm_num))).2
        (by rw [Nat.mul_comm]; omega)
    have hmd : m / 10 ^ k < 10 :=
      (Nat.div_lt_iff_lt_mul (Nat.pos_pow_of_pos k (by norm_num))).2
        (by rw [Nat.mul_comm]; omega)
    rcases Nat.lt_or_ge (n / 10 ^ k) (m / 10 ^ k) with hlt | hge
    · exact List.Lex.rel (digitChar_lt hnd hmd hlt)
    · have hqe : n / 10 ^ k = m / 10 ^ k :=
        Nat.le_antisymm (Nat.div_le_div_right (Nat.le_of_lt h)) hge
      have hn2 := Nat.div_add_mod n (10 ^ k)
      have hm2 := Nat.div_add_mod m (10 ^ k)
      have hrn : n % 10 ^ k < 10 ^ k :=
        Nat.mod_lt _ (Nat.pos_pow_of_pos k (by norm_num))
      have hrm : m % 10 ^ k < 10 ^ k :=
        Nat.mod_lt _ (Nat.pos_pow_of_pos k (by norm_num))
      have hrlt : n % 10 ^ k < m % 10 ^ k := by
        rw [hqe] at hn2; omega
      simp only [natDigits, hqe]
      exact List.Lex.cons (ih hrn hrm hrlt)

/-- A strict lexicographic comparison between equal-length lists survives
appending arbitrary suffixes to both sides. -/
lemma lex_append_of_length_eq {as bs xs ys : List Char}
    (h : List.Lex (· < ·) as bs) (hl : as.length = bs.length) :
    List.Lex (· < ·) (as ++ xs) (bs ++ ys) := by
  induction h with
  | nil => simp at hl
  | cons h ih => exact List.Lex.cons (ih (by simpa using hl))
  | rel h => exact List.Lex.rel h

/-- A strict lexicographic comparison survives a common front segment. -/
lemma lex_append_left {as bs : List Char} (p : List Char)
    (h : List.Lex (· < ·) as bs) :
    List.Lex (· < ·) (p ++ as) (p ++ bs) := by
  induction p with
  | nil => simpa
  | cons c p ih => exact List.Lex.cons ih

/-- Chronologically ordered valid timestamps format to lexicographically
ordered `YYYYMMDD_HHMMSS` character sequences. -/
lemma tsChars_lex {t1 t2 : DateTime} (h1 : validDT t1) (h2 : validDT t2)
    (h : before t1 t2) :
    List.Lex (· < ·) (tsChars t1) (tsChars t2) := by
  obtain ⟨hy1, hmo1l, hmo1, hd1l, hd1, hh1, hmi1, hs1⟩ := h1
  obtain ⟨hy2, hmo2l, hmo2, hd2l, hd2, hh2, hmi2, hs2⟩ := h2
  have p4 : (10 : Nat) ^ 4 = 10000 := by norm_num
  have p2 : (10 : Nat) ^ 2 = 100 := by norm_num
  unfold tsChars
  rcases h with hy | ⟨hye, h⟩
  · exact lex_append_of_length_eq
      (natDigits_lex (by omega) (by omega) hy)
      (by simp [natDigits_length])
  rw [hye]
  apply lex_append_left
  rcases h with hmo | ⟨hmoe, h⟩
  · exact lex_append_of_length_eq
      (natDigits_lex (by omega) (by omega) hmo)
      (by simp [natDigits_length])
  rw [hmoe]
  apply lex_append_left
  rcases h with hd | ⟨hde, h⟩
  · exact lex_append_of_length_eq
      (natDigits_lex (by omega) (by omega) hd)
      (by simp [natDigits_length])
  rw [hde]
  apply lex_append_left
  apply List.Lex.cons
  rcases h with hh | ⟨hhe, h⟩
  · exact lex_append_of_length_eq
      (natDigits_lex (by omega) (by omega) hh)
      (by simp [natDigits_length])
  rw [hhe]
  apply lex_append_left
  rcases h with hmi | ⟨hmie, h⟩
  · exact lex_append_of_length_eq
      (natDigits_lex (by omega) (by omega) hmi)
      (by simp [natDigits_length])
  rw [hmie]
  apply lex_append_left
  exact natDigits_lex (by omega) (by omega) h

/-- Default form values: the Streamlit widget defaults of `app.py` (empty
customer id, first select-box option each, tenure 12, charges 50.00 and
500.00).  Field order follows the `Fields` structure. -/
def defaultFields : Fields :=
  ⟨"", "Male", "No", "No", "No", 12, "No", "No", "DSL", "No", "No", "No",
   "No", "No", "No", "Month-to-month", "No", "Electronic check", 50, 500⟩

/-- A fitted pipeline stub that predicts churn with probability 4/5. -/
def plChurnYes : Pipeline :=
  ⟨fun _ => .ok [PyVal.int 1], some (fun _ => .ok [[1/5, 4/5]])⟩

/-- A pipeline stub whose probability capability raises. -/
def plProbaRaises : Pipeline :=
  ⟨fun _ => .ok [PyVal.int 0], some (fun _ => .error "boom")⟩

/-- A pipeline stub whose prediction call itself raises. -/
def plPredictRaises : Pipeline :=
  ⟨fun _ => .error "schema mismatch", none⟩

/-- C8: among calendar-valid timestamps, chronological order (hence any two
clock readings at least one second apart, suitably ordered) makes the
embedded `churn_report_<YYYYMMDD_HHMMSS>.pdf` filenames strictly increase
lexicographically, and in particular differ. -/
theorem report_filenames_monotone (t1 t2 : DateTime)
    (h1 : validDT t1) (h2 : validDT t2) (h : before t1 t2) :
    report_filename t1 < report_filename t2 ∧
      report_filename t1 ≠ report_filename t2 := by
  have hlex := tsChars_lex h1 h2 h
  have hlt : report_filename t1 < report_filename t2 := by
    apply String.lt_iff_toList_lt.2
    show ("churn_report_".toList ++ tsChars t1) ++ ".pdf".toList <
      ("churn_report_".toList ++ tsChars t2) ++ ".pdf".toList
    rw [List.append_assoc, List.append_assoc]
    exact lex_append_left _
      (lex_append_of_length_eq hlex (by simp [tsChars, natDigits_length]))
  exact ⟨hlt, ne_of_lt hlt⟩

/-- Witness for C8 at two concrete clock readings one second apart. -/
theorem report_filenames_monotone_witness :
    validDT ⟨2025, 3, 14, 9, 26, 53⟩ ∧ validDT ⟨2025, 3, 14, 9, 26, 54⟩ ∧
    before ⟨2025, 3, 14, 9, 26, 53⟩ ⟨2025, 3, 14, 9, 26, 54⟩ ∧
    report_filename ⟨2025, 3, 14, 9, 26, 53⟩ = "churn_report_20250314_092653.pdf" ∧
    (report_filename ⟨2025, 3, 14, 9, 26, 53⟩ < report_filename ⟨2025, 3, 14, 9, 26, 54⟩ ∧
      report_filename ⟨2025, 3, 14, 9, 26, 53⟩ ≠ report_filename ⟨2025, 3, 14, 9, 26, 54⟩) :=
  ⟨by decide, by decide, by decide, rfl,
    report_filenames_monotone ⟨2025, 3, 14, 9, 26, 53⟩ ⟨2025, 3, 14, 9, 26, 54⟩
      (by decide) (by decide) (by decide)⟩

/-- C4: the rendered report always contains the verdict line — the
"LIKELY TO CHURN" form exactly when the label passes the `== 1` test, the
"NOT LIKELY TO CHURN" form otherwise — and it contains a probability line
iff the probability argument is present. -/
theorem generate_pdf_verdict_and_probability (dict : Df) (label : PyVal)
    (proba : Option Rat) (tGen tFile : DateTime) :
    ((if pyEqOne label then PdfLine.verdict "LIKELY TO CHURN ❌" 200 30 30
      else PdfLine.verdict "NOT LIKELY TO CHURN ✅" 30 130 30)
        ∈ (generate_pdf dict label proba tGen tFile).1) ∧
    ((∃ p, PdfLine.probLine p ∈ (generate_pdf dict label proba tGen tFile).1) ↔
      proba.isSome = true) := by
  constructor
  · cases hl : pyEqOne label <;> simp [generate_pdf, hl]
  · cases hl : pyEqOne label <;> cases proba <;> simp [generate_pdf, hl]

/-- C9: the label test `pred_label == 1` succeeds exactly on the integer 1
(or the float 1.0, which Python's `==` identifies with it); the red
"LIKELY TO CHURN" verdict appears in the report iff that test succeeds, and
every other label value whatsoever — 0, any other integer, any string —
yields the green "NOT LIKELY TO CHURN" verdict, with no error branch. -/
theorem generate_pdf_label_dichotomy (dict : Df) (proba : Option Rat)
    (tGen tFile : DateTime) (label : PyVal) :
    (pyEqOne label = true ↔ (label = PyVal.int 1 ∨ label = PyVal.num 1)) ∧
    (PdfLine.verdict "LIKELY TO CHURN ❌" 200 30 30
        ∈ (generate_pdf dict label proba tGen tFile).1 ↔ pyEqOne label = true) ∧
    (PdfLine.verdict "NOT LIKELY TO CHURN ✅" 30 130 30
        ∈ (generate_pdf dict label proba tGen tFile).1 ↔ pyEqOne label = false) := by
  refine ⟨?_, ?_, ?_⟩
  · cases label <;> simp [pyEqOne]
  · cases hl : pyEqOne label <;> cases proba <;> simp [generate_pdf, hl]
  · cases hl : pyEqOne label <;> cases proba <;> simp [generate_pdf, hl]

/-- Counterexample to C5 as stated: with the default form values the
identity field is blank, yet the rendered document still itemizes
`customerID` with the empty string — the blank identity field is not
omitted from the PDF. -/
theorem generate_pdf_blank_customerID_not_omitted :
    PdfLine.item "customerID" (PyVal.str "") ∈
      (generate_pdf (build_input_df defaultFields) (PyVal.int 1) none
        ⟨2025, 3, 14, 9, 26, 53⟩ ⟨2025, 3, 14, 9, 26, 53⟩).1 := by
  decide

/-- C5 amended: the rendered document itemizes every field of the record,
blank or not — in particular the identity field appears even when blank
(only the on-screen summary table drops it). -/
theorem generate_pdf_itemizes_every_field (dict : Df) (label : PyVal)
    (proba : Option Rat) (tGen tFile : DateTime) (k : String) (v : PyVal)
    (h : (k, v) ∈ dict) :
    PdfLine.item k v ∈ (generate_pdf dict label proba tGen tFile).1 := by
  have hm : PdfLine.item k v ∈ dict.map (fun kv => PdfLine.item kv.1 kv.2) :=
    List.mem_map.2 ⟨(k, v), h, rfl⟩
  simp only [generate_pdf, List.mem_append, List.mem_cons]
  tauto

/-- Witness for the amended C5 at a concrete record and field. -/
theorem generate_pdf_itemizes_every_field_witness :
    ("gender", PyVal.str "Male") ∈ build_input_df defaultFields ∧
    PdfLine.item "gender" (PyVal.str "Male") ∈
      (generate_pdf (build_input_df defaultFields) (PyVal.int 0) none
        ⟨2025, 3, 14, 9, 26, 53⟩ ⟨2025, 3, 14, 9, 26, 53⟩).1 :=
  ⟨by decide,
    generate_pdf_itemizes_every_field (build_input_df defaultFields)
      (PyVal.int 0) none ⟨2025, 3, 14, 9, 26, 53⟩ ⟨2025, 3, 14, 9, 26, 53⟩
      "gender" (PyVal.str "Male") (by decide)⟩

/-- C1, on the code as written: the predict-button handler never calls
`generate_pdf`, so for every form input and pipeline no report file is
written; in particular at the default form values with a churn-predicting
pipeline the handler finishes normally with an empty list of written files,
although the page itself promises a downloadable PDF report. -/
theorem predict_handler_writes_no_report :
    (∀ f pl, (predict_handler f pl).1.files = []) ∧
    (predict_handler defaultFields plChurnYes).1.files = [] ∧
    (predict_handler defaultFields plChurnYes).2 = none := by
  refine ⟨fun f pl => ?_, rfl, rfl⟩
  cases hres : adapter_predict pl (build_input_df f) with
  | error e => simp [predict_handler, hres]
  | ok pr => simp [predict_handler, hres]

/-- C3: when the pipeline's prediction succeeds, the adapter returns the
first label; the probability is the second entry of the first row of the
`predict_proba` matrix when that capability exists and succeeds, and is
absent — without the step raising — when the capability is missing or
raises. -/
theorem adapter_predict_probability (pl : Pipeline) (X : Df)
    (pred : PyVal) (rest : List PyVal)
    (hp : pl.predict X = .ok (pred :: rest)) :
    (pl.predict_proba = none →
      adapter_predict pl X = .ok (pred, none)) ∧
    (∀ g e, pl.predict_proba = some g → g X = .error e →
      adapter_predict pl X = .ok (pred, none)) ∧
    (∀ g p0 p prow mrest, pl.predict_proba = some g →
      g X = .ok ((p0 :: p :: prow) :: mrest) →
      adapter_predict pl X = .ok (pred, some p)) := by
  refine ⟨fun hnone => ?_, fun g e hg hge => ?_, fun g p0 p prow mrest hg hgok => ?_⟩
  · simp [adapter_predict, hp, hnone]
  · simp [adapter_predict, hp, hg, hge]
  · simp [adapter_predict, hp, hg, hgok]

/-- Witness for C3: a pipeline whose probability capability raises still
yields a label with the probability absent. -/
theorem adapter_predict_probability_witness :
    plProbaRaises.predict (build_input_df defaultFields) =
      .ok [PyVal.int 0] ∧
    adapter_predict plProbaRaises (build_input_df defaultFields) =
      .ok (PyVal.int 0, none) :=
  ⟨rfl,
    (adapter_predict_probability plProbaRaises (build_input_df defaultFields)
        (PyVal.int 0) [] rfl).2.1
      (fun _ => .error "boom") "boom" rfl rfl⟩

/-- C6: when the pipeline's prediction call itself fails, the failure is
fatal to that single request — the `finally` block runs, the exception is
surfaced to the hosting framework, no verdict message of either kind is
shown, and no report file is written: no fallback prediction is
substituted. -/
theorem predict_handler_inference_failure (f : Fields) (pl : Pipeline)
    (e : String) (h : pl.predict (build_input_df f) = .error e) :
    (predict_handler f pl).2 = some e ∧
    (predict_handler f pl).1.files = [] ∧
    UiMsg.info "Prediction attempt finished." ∈ (predict_handler f pl).1.shown ∧
    UiMsg.errorMsg "❌ This customer is likely to churn."
      ∉ (predict_handler f pl).1.shown ∧
    UiMsg.successMsg "✅ This customer is not likely to churn."
      ∉ (predict_handler f pl).1.shown := by
  have hA : adapter_predict pl (build_input_df f) = .error e := by
    simp [adapter_predict, h]
  simp [predict_handler, hA]

/-- Witness for C6 at the default form values and a pipeline whose
prediction call raises a schema mismatch. -/
theorem predict_handler_inference_failure_witness :
    plPredictRaises.predict (build_input_df defaultFields) =
      .error "schema mismatch" ∧
    ((predict_handler defaultFields plPredictRaises).2 = some "schema mismatch" ∧
      (predict_handler defaultFields plPredictRaises).1.files = [] ∧
      UiMsg.info "Prediction attempt finished."
        ∈ (predict_handler defaultFields plPredictRaises).1.shown ∧
      UiMsg.errorMsg "❌ This customer is likely to churn."
        ∉ (predict_handler defaultFields plPredictRaises).1.shown ∧
      UiMsg.successMsg "✅ This customer is not likely to churn."
        ∉ (predict_handler defaultFields plPredictRaises).1.shown) :=
  ⟨rfl, predict_handler_inference_failure defaultFields plPredictRaises
    "schema mismatch" rfl⟩

/-- C7: a failed model load at startup produces the visible formatted fatal
error and a halted application that serves no request — no prediction is
ever made with an unloaded pipeline — while a successful load runs the app. -/
theorem startup_load_failure_halts (e : String) :
    startup (.error e) = .halted ("❌ Failed to load model: " ++ e) ∧
    (∀ f, run_app (startup (.error e)) f = none) ∧
    (∀ pl f, run_app (startup (.ok pl)) f = some (predict_handler f pl)) :=
  ⟨rfl, fun _ => rfl, fun _ _ => rfl⟩
